import Mathlib

/-
Verification of the cart-management contract implemented in
`backend/src/routes/cart.py`.  The four FastAPI handlers (`get_cart`,
`add_to_cart`, `update_cart`, `remove_from_cart`) are embedded as pure
functions over an explicit store state; the SQLAlchemy session is modelled
as a list of persisted rows, the interaction log as an append-only list,
and each handler additionally reports an ordered trace of the effects it
issued (log write, store write, commit).
-/

namespace CartService

/-- One persisted cart row (table `CartItemDB` from `database.models_sql`):
one row per (user_id, product_id) pair with an integer quantity. -/
structure CartRow where
  user_id : String
  product_id : String
  quantity : Int
deriving DecidableEq, Repr

/-- Modelled from the spec: the transport entity `CartItem` (its pydantic
model lives in `models.py`, which is not part of the fragment).  Spec §6
gives the wire shape `\x7b user_id : string, product_id : string,
quantity : integer (optional on POST) \x7d`, so `quantity` is an
`Option Int`, `none` standing for an omitted field (Python `None`). -/
structure CartItem where
  user_id : String
  product_id : String
  quantity : Option Int
deriving DecidableEq, Repr

/-- Modelled from the spec: one record of the append-only InteractionLog
(`db_service.log_interaction` lives in `services/database_service.py`,
which is not part of the fragment; spec §2/§6 describe it as an
append-only fire-and-forget sink recording actor, subject and action). -/
structure LogEntry where
  user_id : String
  item_id : String
  interaction_type : String
deriving DecidableEq, Repr

/-- Modelled from the spec: the string value of `InteractionType.CART`
(defined in the missing `models.py`); spec §4.1 names the action
"cart-add". -/
def cartInteraction : String := "cart-add"

/-- The persisted world visible to the handlers: the cart table and the
interaction log. -/
structure State where
  cart : List CartRow
  log : List LogEntry
deriving DecidableEq, Repr

/-- Error outcomes a handler can surface. -/
inductive Err where
  | forbidden
  | notFound
  | internalError
deriving DecidableEq, Repr

/-- HTTP status code carried by each error. -/
def Err.status : Err → Nat
  | .forbidden => 403
  | .notFound => 404
  | .internalError => 500

/-- One observable effect issued by a handler, in execution order. -/
inductive Eff where
  | logWrite (e : LogEntry)
  | storeWrite
  | commit
deriving DecidableEq, Repr

/-- Result of running one handler: its HTTP-level response, the state of
the world afterwards, and the ordered trace of effects it issued. -/
structure Outcome (α : Type) where
  response : Except Err α
  state : State
  trace : List Eff

/-- The row-key predicate used by every `select ... where` in the file:
`CartItemDB.user_id == user_id, CartItemDB.product_id == item.product_id`. -/
def keyMatch (uid pid : String) (r : CartRow) : Bool :=
  r.user_id == uid && r.product_id == pid

/-- SQLAlchemy `Result.scalar_one_or_none()`: `none` on zero rows, the row
on exactly one, and an error (`MultipleResultsFound`) on more than one. -/
def scalar_one_or_none (rows : List CartRow) : Except Err (Option CartRow) :=
  match rows with
  | [] => .ok none
  | [r] => .ok (some r)
  | _ :: _ :: _ => .error .internalError

/-- Python `item.quantity or 1`: `None` and `0` are falsy and default to 1;
every other integer (negative ones included) is kept. -/
def orOne : Option Int → Int
  | none => 1
  | some q => if q = 0 then 1 else q

/-- Lookup of the row keyed by (uid, pid). -/
def findRow (cart : List CartRow) (uid pid : String) : Option CartRow :=
  cart.find? (keyMatch uid pid)

/-- GET `/cart/\x7buser_id\x7d` (`get_cart`, cart.py lines 18-42).
`current_user` is the `user_id` of the identity resolved by
`get_current_user`.  After the ownership check it selects all rows of the
user and maps them to transport `CartItem`s. -/
def get_cart (user_id : String) (current_user : String) (s : State) :
    Outcome (List CartItem) :=
  if current_user ≠ user_id then
    ⟨.error .forbidden, s, []⟩
  else
    let rows := s.cart.filter (fun r => r.user_id == user_id)
    ⟨.ok (rows.map (fun r => ⟨r.user_id, r.product_id, some r.quantity⟩)), s, []⟩

/-- POST `/cart/\x7buser_id\x7d` (`add_to_cart`, cart.py lines 45-86).
After the ownership check it unconditionally logs the interaction
(actor = `item.user_id`, subject = `item.product_id`), then looks up the
row keyed by (path `user_id`, `item.product_id`); if present its quantity
is incremented by `item.quantity or 1`, otherwise a new row is inserted
with that quantity, and the transaction is committed. -/
def add_to_cart (user_id : String) (item : CartItem) (current_user : String)
    (s : State) : Outcome Unit :=
  if current_user ≠ user_id then
    ⟨.error .forbidden, s, []⟩
  else
    let e : LogEntry := ⟨item.user_id, item.product_id, cartInteraction⟩
    let s1 : State := ⟨s.cart, s.log ++ [e]⟩
    match scalar_one_or_none (s1.cart.filter (keyMatch user_id item.product_id)) with
    | .error err => ⟨.error err, s1, [.logWrite e]⟩
    | .ok (some _) =>
        ⟨.ok (),
          ⟨s1.cart.map (fun r =>
            if keyMatch user_id item.product_id r then
              ⟨r.user_id, r.product_id, r.quantity + orOne item.quantity⟩
            else r), s1.log⟩,
          [.logWrite e, .storeWrite, .commit]⟩
    | .ok none =>
        ⟨.ok (),
          ⟨s1.cart ++ [⟨user_id, item.product_id, orOne item.quantity⟩], s1.log⟩,
          [.logWrite e, .storeWrite, .commit]⟩

/-- PUT `/cart/\x7buser_id\x7d` (`update_cart`, cart.py lines 89-128).
After the ownership check it looks up the row keyed by (path `user_id`,
`item.product_id`); if absent it fails with 404 and mutates nothing; if
present it deletes the row when `item.quantity <= 0` and otherwise
overwrites the stored quantity with `item.quantity`, then commits.
(`item.quantity <= 0` on a Python `None` raises a `TypeError`, modelled
as an internal error.) -/
def update_cart (user_id : String) (item : CartItem) (current_user : String)
    (s : State) : Outcome Unit :=
  if current_user ≠ user_id then
    ⟨.error .forbidden, s, []⟩
  else
    match scalar_one_or_none (s.cart.filter (keyMatch user_id item.product_id)) with
    | .error err => ⟨.error err, s, []⟩
    | .ok (some _) =>
        match item.quantity with
        | none => ⟨.error .internalError, s, []⟩
        | some q =>
            if q ≤ 0 then
              ⟨.ok (),
                ⟨s.cart.filter (fun r => !(keyMatch user_id item.product_id r)), s.log⟩,
                [.storeWrite, .commit]⟩
            else
              ⟨.ok (),
                ⟨s.cart.map (fun r =>
                  if keyMatch user_id item.product_id r then
                    ⟨r.user_id, r.product_id, q⟩
                  else r), s.log⟩,
                [.storeWrite, .commit]⟩
    | .ok none => ⟨.error .notFound, s, []⟩

/-- DELETE `/cart/\x7buser_id\x7d` (`remove_from_cart`, cart.py lines
131-165).  The ownership check (lines 139-147) comes first.  The body
after it is unexecutable: line 150 calls `delete(CartItemDB)` but the
name `delete` is never imported (only `select` is), line 154 invokes
`scalar_one_or_none` on the result of a DELETE statement, and lines
159-161 are malformed (an unterminated f-string and stray indentation).
Every authorized call therefore fails with an internal server error
before any store mutation or commit. -/
def remove_from_cart (user_id : String) (item : CartItem) (current_user : String)
    (s : State) : Outcome Unit :=
  if current_user ≠ user_id then
    ⟨.error .forbidden, s, []⟩
  else
    ⟨.error .internalError, s, []⟩

/-- Key uniqueness of the persisted table: no two rows share the
(user_id, product_id) pair (the primary key of the table). -/
def keysUnique (cart : List CartRow) : Prop :=
  cart.Pairwise (fun a b => a.user_id ≠ b.user_id ∨ a.product_id ≠ b.product_id)

instance (cart : List CartRow) : Decidable (keysUnique cart) := by
  unfold keysUnique; infer_instance

/-- Data-model invariant from spec §3: every persisted row has a positive
quantity. -/
def invariant (s : State) : Prop :=
  ∀ r ∈ s.cart, 1 ≤ r.quantity

instance (s : State) : Decidable (invariant s) := by
  unfold invariant; infer_instance

lemma keyMatch_iff (uid pid : String) (r : CartRow) :
    keyMatch uid pid r = true ↔ r.user_id = uid ∧ r.product_id = pid := by
  simp [keyMatch]

lemma filter_eq_nil_of_findRow_none (cart : List CartRow) (uid pid : String)
    (h : findRow cart uid pid = none) :
    cart.filter (keyMatch uid pid) = [] := by
  rw [List.filter_eq_nil_iff]
  exact List.find?_eq_none.mp h

lemma filter_eq_singleton_of_findRow_some (cart : List CartRow) (uid pid : String)
    (r : CartRow) (hu : keysUnique cart) (h : findRow cart uid pid = some r) :
    cart.filter (keyMatch uid pid) = [r] := by
  induction cart with
  | nil => simp [findRow] at h
  | cons a l ih =>
      rw [keysUnique, List.pairwise_cons] at hu
      by_cases hp : keyMatch uid pid a = true
      · rw [findRow, List.find?_cons_of_pos _ hp] at h
        have h6 : a = r := by injection h
        subst h6
        rw [List.filter_cons_of_pos hp]
        have hnil : ∀ x ∈ l, ¬(keyMatch uid pid x = true) := by
          intro x hx hxm
          obtain ⟨h1, h2⟩ := (keyMatch_iff uid pid a).mp hp
          obtain ⟨h3, h4⟩ := (keyMatch_iff uid pid x).mp hxm
          rcases hu.1 x hx with h5 | h5
          · exact h5 (h1.trans h3.symm)
          · exact h5 (h2.trans h4.symm)
        rw [List.filter_eq_nil_iff.mpr hnil]
      · rw [findRow, List.find?_cons_of_neg _ hp] at h
        rw [List.filter_cons_of_neg hp]
        exact ih hu.2 h

lemma not_ne_self (uid : String) : ¬(uid ≠ uid) := fun hh => hh rfl

/-- Behaviour of an authorized AddItem when the key is absent. -/
lemma add_to_cart_absent (uid : String) (item : CartItem) (s : State)
    (habs : findRow s.cart uid item.product_id = none) :
    add_to_cart uid item uid s =
      ⟨.ok (),
        ⟨s.cart ++ [⟨uid, item.product_id, orOne item.quantity⟩],
          s.log ++ [⟨item.user_id, item.product_id, cartInteraction⟩]⟩,
        [.logWrite ⟨item.user_id, item.product_id, cartInteraction⟩,
          .storeWrite, .commit]⟩ := by
  have hf := filter_eq_nil_of_findRow_none s.cart uid item.product_id habs
  simp only [add_to_cart, if_neg (not_ne_self uid), hf, scalar_one_or_none]

/-- Behaviour of an authorized AddItem when the key is present (unique keys). -/
lemma add_to_cart_present (uid : String) (item : CartItem) (s : State) (r : CartRow)
    (hu : keysUnique s.cart) (hex : findRow s.cart uid item.product_id = some r) :
    add_to_cart uid item uid s =
      ⟨.ok (),
        ⟨s.cart.map (fun x =>
            if keyMatch uid item.product_id x then
              ⟨x.user_id, x.product_id, x.quantity + orOne item.quantity⟩
            else x),
          s.log ++ [⟨item.user_id, item.product_id, cartInteraction⟩]⟩,
        [.logWrite ⟨item.user_id, item.product_id, cartInteraction⟩,
          .storeWrite, .commit]⟩ := by
  have hf := filter_eq_singleton_of_findRow_some s.cart uid item.product_id r hu hex
  simp only [add_to_cart, if_neg (not_ne_self uid), hf, scalar_one_or_none]

/-- Log and trace of an authorized AddItem: the interaction entry is
always appended, and the trace starts with the log write in every
branch of the store lookup. -/
lemma add_to_cart_log_trace (uid : String) (item : CartItem) (s : State) :
    (add_to_cart uid item uid s).state.log =
      s.log ++ [⟨item.user_id, item.product_id, cartInteraction⟩] ∧
    ((add_to_cart uid item uid s).trace =
        [.logWrite ⟨item.user_id, item.product_id, cartInteraction⟩,
          .storeWrite, .commit] ∨
      (add_to_cart uid item uid s).trace =
        [.logWrite ⟨item.user_id, item.product_id, cartInteraction⟩]) := by
  rcases hflt : s.cart.filter (keyMatch uid item.product_id) with _ | ⟨r1, _ | ⟨r2, rest⟩⟩ <;>
    simp [add_to_cart, if_neg (not_ne_self uid), hflt, scalar_one_or_none]

/-- Behaviour of an authorized UpdateItem when the key is absent. -/
lemma update_cart_absent (uid : String) (item : CartItem) (s : State)
    (habs : findRow s.cart uid item.product_id = none) :
    update_cart uid item uid s = ⟨.error .notFound, s, []⟩ := by
  have hf := filter_eq_nil_of_findRow_none s.cart uid item.product_id habs
  simp only [update_cart, if_neg (not_ne_self uid), hf, scalar_one_or_none]

/-- Behaviour of an authorized UpdateItem on a present key with positive
quantity. -/
lemma update_cart_present_pos (uid : String) (item : CartItem) (s : State)
    (r : CartRow) (q : Int) (hu : keysUnique s.cart)
    (hex : findRow s.cart uid item.product_id = some r)
    (hq : item.quantity = some q) (hpos : 0 < q) :
    update_cart uid item uid s =
      ⟨.ok (),
        ⟨s.cart.map (fun x =>
            if keyMatch uid item.product_id x then ⟨x.user_id, x.product_id, q⟩
            else x), s.log⟩,
        [.storeWrite, .commit]⟩ := by
  have hf := filter_eq_singleton_of_findRow_some s.cart uid item.product_id r hu hex
  simp only [update_cart, if_neg (not_ne_self uid), hf, scalar_one_or_none, hq,
    if_neg (not_le.mpr hpos)]

/-- Behaviour of an authorized UpdateItem on a present key with
non-positive quantity. -/
lemma update_cart_present_nonpos (uid : String) (item : CartItem) (s : State)
    (r : CartRow) (q : Int) (hu : keysUnique s.cart)
    (hex : findRow s.cart uid item.product_id = some r)
    (hq : item.quantity = some q) (hnp : q ≤ 0) :
    update_cart uid item uid s =
      ⟨.ok (),
        ⟨s.cart.filter (fun x => !(keyMatch uid item.product_id x)), s.log⟩,
        [.storeWrite, .commit]⟩ := by
  have hf := filter_eq_singleton_of_findRow_some s.cart uid item.product_id r hu hex
  simp only [update_cart, if_neg (not_ne_self uid), hf, scalar_one_or_none, hq,
    if_pos hnp]

/-- Claim C1: for every operation (ListCart, AddItem, UpdateItem,
RemoveItem), when the resolved caller identity differs from the `user_id`
path parameter the operation fails with Forbidden (status 403) before any
other logic, issues no effect, and leaves the whole state — the stored
cart of every user and the interaction log — unchanged. -/
theorem claim1_auth_guard (uid cur : String) (item : CartItem) (s : State)
    (h : cur ≠ uid) :
    get_cart uid cur s = ⟨.error .forbidden, s, []⟩ ∧
    add_to_cart uid item cur s = ⟨.error .forbidden, s, []⟩ ∧
    update_cart uid item cur s = ⟨.error .forbidden, s, []⟩ ∧
    remove_from_cart uid item cur s = ⟨.error .forbidden, s, []⟩ ∧
    Err.status .forbidden = 403 := by
  refine ⟨?_, ?_, ?_, ?_, rfl⟩ <;>
    simp only [get_cart, add_to_cart, update_cart, remove_from_cart, if_pos h]

/-- Witness for C1 at a concrete mismatched identity. -/
theorem claim1_auth_guard_witness :
    get_cart "alice" "bob" ⟨[], []⟩ = ⟨.error .forbidden, ⟨[], []⟩, []⟩ ∧
    add_to_cart "alice" ⟨"bob", "sku1", some 1⟩ "bob" ⟨[], []⟩ =
      ⟨.error .forbidden, ⟨[], []⟩, []⟩ ∧
    update_cart "alice" ⟨"bob", "sku1", some 1⟩ "bob" ⟨[], []⟩ =
      ⟨.error .forbidden, ⟨[], []⟩, []⟩ ∧
    remove_from_cart "alice" ⟨"bob", "sku1", some 1⟩ "bob" ⟨[], []⟩ =
      ⟨.error .forbidden, ⟨[], []⟩, []⟩ ∧
    Err.status .forbidden = 403 :=
  claim1_auth_guard "alice" "bob" ⟨"bob", "sku1", some 1⟩ ⟨[], []⟩ (by decide)

/-- Counterexample to C2 as stated: an authorized AddItem with quantity -5
on an empty cart creates and commits a row with quantity -5 ≤ 0 — the
"for every input quantity" part of the claim is false. -/
theorem claim2_counterexample :
    (add_to_cart "alice" ⟨"alice", "sku1", some (-5)⟩ "alice" ⟨[], []⟩).state.cart =
      [⟨"alice", "sku1", -5⟩] ∧
    ¬invariant (add_to_cart "alice" ⟨"alice", "sku1", some (-5)⟩ "alice" ⟨[], []⟩).state := by
  exact ⟨by decide, by decide⟩

/-- Claim C2 (amended): from a state in which every row has quantity ≥ 1,
UpdateItem and RemoveItem always preserve the invariant, and AddItem
preserves it whenever `item.quantity` is omitted or non-negative (omitted
and zero default to 1); only a negative AddItem quantity can break it. -/
theorem claim2_invariant_preserved (s : State) (hs : invariant s)
    (uid cur : String) (item : CartItem) :
    invariant (update_cart uid item cur s).state ∧
    invariant (remove_from_cart uid item cur s).state ∧
    ((item.quantity = none ∨ ∃ q, item.quantity = some q ∧ 0 ≤ q) →
      invariant (add_to_cart uid item cur s).state) := by
  refine ⟨?_, ?_, ?_⟩
  case refine_3 =>
    intro hq
    have horOne : 1 ≤ orOne item.quantity := by
      rcases hq with h | ⟨q, hq1, hq2⟩
      · simp [h, orOne]
      · rw [hq1]
        simp only [orOne]
        by_cases h0 : q = 0
        · simp [h0]
        · rw [if_neg h0]; omega
    by_cases hc : cur ≠ uid
    · simp only [add_to_cart, if_pos hc]; exact hs
    · push_neg at hc; subst hc
      rcases hflt : s.cart.filter (keyMatch cur item.product_id) with _ | ⟨r1, _ | ⟨r2, rest⟩⟩ <;>
        simp only [add_to_cart, if_neg (not_ne_self cur), hflt, scalar_one_or_none]
      · intro x hx
        rcases List.mem_append.mp hx with hx1 | hx2
        · exact hs x hx1
        · rcases List.mem_singleton.mp hx2 with rfl
          exact horOne
      · intro x hx
        rcases List.mem_map.mp hx with ⟨y, hy, rfl⟩
        by_cases hk : keyMatch cur item.product_id y = true
        · rw [if_pos hk]
          have := hs y hy
          simp only
          omega
        · rw [if_neg hk]
          exact hs y hy
      · exact hs
  · by_cases hc : cur ≠ uid
    · simp only [update_cart, if_pos hc]; exact hs
    · push_neg at hc; subst hc
      rcases hflt : s.cart.filter (keyMatch cur item.product_id) with _ | ⟨r1, _ | ⟨r2, rest⟩⟩ <;>
        simp only [update_cart, if_neg (not_ne_self cur), hflt, scalar_one_or_none]
      · exact hs
      · rcases item.quantity with _ | q
        · exact hs
        · by_cases hq0 : q ≤ 0
          · simp only [if_pos hq0]
            intro x hx
            exact hs x (List.mem_of_mem_filter hx)
          · simp only [if_neg hq0]
            intro x hx
            rcases List.mem_map.mp hx with ⟨y, hy, rfl⟩
            by_cases hk : keyMatch cur item.product_id y = true
            · rw [if_pos hk]; simp only; omega
            · rw [if_neg hk]; exact hs y hy
      · exact hs
  · by_cases hc : cur ≠ uid
    · simp only [remove_from_cart, if_pos hc]; exact hs
    · simp only [remove_from_cart, if_neg hc]; exact hs

/-- Witness for the amended C2 at a concrete state and item. -/
theorem claim2_invariant_preserved_witness :
    invariant (update_cart "alice" ⟨"alice", "sku1", some 2⟩ "alice"
      ⟨[⟨"alice", "sku1", 1⟩], []⟩).state ∧
    invariant (remove_from_cart "alice" ⟨"alice", "sku1", some 2⟩ "alice"
      ⟨[⟨"alice", "sku1", 1⟩], []⟩).state ∧
    invariant (add_to_cart "alice" ⟨"alice", "sku1", some 2⟩ "alice"
      ⟨[⟨"alice", "sku1", 1⟩], []⟩).state := by
  have T := claim2_invariant_preserved ⟨[⟨"alice", "sku1", 1⟩], []⟩ (by decide)
    "alice" "alice" ⟨"alice", "sku1", some 2⟩
  exact ⟨T.1, T.2.1, T.2.2 (Or.inr ⟨2, rfl, by decide⟩)⟩

/-- Claim C3 evaluated against the code: an authorized RemoveItem on a
present row does not delete it.  The handler body after the ownership
check is unexecutable (the name `delete` is never imported, the logging
lines are malformed), so the call fails with an internal error (500),
leaves the row in place, commits nothing, and returns neither 204 nor
404 — contradicting the claimed delete-and-return-no-content behaviour. -/
theorem claim3_remove_broken :
    remove_from_cart "alice" ⟨"alice", "sku1", some 1⟩ "alice"
        ⟨[⟨"alice", "sku1", 2⟩], []⟩ =
      ⟨.error .internalError, ⟨[⟨"alice", "sku1", 2⟩], []⟩, []⟩ ∧
    Err.status .internalError = 500 := by
  constructor
  · rfl
  · rfl

/-- Claim C6: an authorized UpdateItem on an absent (user_id, product_id)
key fails with NotFound (404), leaves the state completely unchanged and
issues no effect — in particular no store write and no commit. -/
theorem claim6_update_not_found (uid : String) (item : CartItem) (s : State)
    (habs : findRow s.cart uid item.product_id = none) :
    update_cart uid item uid s = ⟨.error .notFound, s, []⟩ ∧
    Err.status .notFound = 404 :=
  ⟨update_cart_absent uid item s habs, rfl⟩

/-- Witness for C6 at a concrete absent key. -/
theorem claim6_update_not_found_witness :
    update_cart "alice" ⟨"alice", "sku9", some 3⟩ "alice"
        ⟨[⟨"alice", "sku1", 2⟩], []⟩ =
      ⟨.error .notFound, ⟨[⟨"alice", "sku1", 2⟩], []⟩, []⟩ ∧
    Err.status .notFound = 404 :=
  claim6_update_not_found "alice" ⟨"alice", "sku9", some 3⟩
    ⟨[⟨"alice", "sku1", 2⟩], []⟩ (by decide)

/-- Claim C4: an authorized AddItem increments the quantity of an existing
(path user_id, item.product_id) row by the (defaulted) item quantity,
creates a new row with that quantity when the key is absent, defaults the
quantity to 1 when it is omitted or zero, and in particular adding
quantity 2 twice to an empty cart yields one row of quantity 4. -/
theorem claim4_add_semantics (uid : String) (item : CartItem) (s : State)
    (hu : keysUnique s.cart) :
    (add_to_cart uid item uid s).response = .ok () ∧
    (findRow s.cart uid item.product_id = none →
      (add_to_cart uid item uid s).state.cart =
        s.cart ++ [⟨uid, item.product_id, orOne item.quantity⟩]) ∧
    (∀ r, findRow s.cart uid item.product_id = some r →
      (add_to_cart uid item uid s).state.cart =
        s.cart.map (fun x =>
          if keyMatch uid item.product_id x then
            ⟨x.user_id, x.product_id, x.quantity + orOne item.quantity⟩
          else x)) ∧
    orOne none = 1 ∧ orOne (some 0) = 1 ∧
    (add_to_cart "alice" ⟨"alice", "sku1", some 2⟩ "alice"
        (add_to_cart "alice" ⟨"alice", "sku1", some 2⟩ "alice"
          ⟨[], []⟩).state).state.cart =
      [⟨"alice", "sku1", 4⟩] := by
  refine ⟨?_, ?_, ?_, rfl, by decide, by decide⟩
  · cases hf : findRow s.cart uid item.product_id with
    | none => rw [add_to_cart_absent uid item s hf]
    | some r => rw [add_to_cart_present uid item s r hu hf]
  · intro hf
    rw [add_to_cart_absent uid item s hf]
  · intro r hf
    rw [add_to_cart_present uid item s r hu hf]

/-- Witness for C4 at a concrete item and a singleton cart. -/
theorem claim4_add_semantics_witness :
    (add_to_cart "alice" ⟨"alice", "sku1", some 2⟩ "alice"
      ⟨[⟨"alice", "sku1", 1⟩], []⟩).response = .ok () ∧
    (add_to_cart "alice" ⟨"alice", "sku1", some 2⟩ "alice"
        ⟨[⟨"alice", "sku1", 1⟩], []⟩).state.cart =
      [⟨"alice", "sku1", 1⟩].map (fun x =>
        if keyMatch "alice" "sku1" x then
          ⟨x.user_id, x.product_id, x.quantity + orOne (some 2)⟩
        else x) := by
  have T := claim4_add_semantics "alice" ⟨"alice", "sku1", some 2⟩
    ⟨[⟨"alice", "sku1", 1⟩], []⟩ (by decide)
  exact ⟨T.1, T.2.2.1 ⟨"alice", "sku1", 1⟩ (by decide)⟩

/-- Claim C5: an authorized UpdateItem on an existing row overwrites the
stored quantity with `item.quantity` when it is positive (absolute set: a
row at quantity 5 updated with 3 ends at 3, not 8), and deletes the row
when `item.quantity ≤ 0`, after which a ListCart of the resulting state
returns no entry for that product. -/
theorem claim5_update_semantics (uid : String) (item : CartItem) (s : State)
    (r : CartRow) (q : Int) (hu : keysUnique s.cart)
    (hex : findRow s.cart uid item.product_id = some r)
    (hq : item.quantity = some q) :
    (update_cart uid item uid s).response = .ok () ∧
    (0 < q → (update_cart uid item uid s).state.cart =
      s.cart.map (fun x =>
        if keyMatch uid item.product_id x then ⟨x.user_id, x.product_id, q⟩
        else x)) ∧
    (q ≤ 0 → ∀ x ∈ (update_cart uid item uid s).state.cart,
      keyMatch uid item.product_id x = false) ∧
    (q ≤ 0 → ∀ ci ∈ ((get_cart uid uid
        (update_cart uid item uid s).state).response.toOption.getD []),
      ci.product_id ≠ item.product_id) ∧
    (update_cart "bob" ⟨"bob", "sku9", some 3⟩ "bob"
        ⟨[⟨"bob", "sku9", 5⟩], []⟩).state.cart =
      [⟨"bob", "sku9", 3⟩] := by
  refine ⟨?_, ?_, ?_, ?_, by decide⟩
  · rcases le_or_lt q 0 with h0 | h0
    · rw [update_cart_present_nonpos uid item s r q hu hex hq h0]
    · rw [update_cart_present_pos uid item s r q hu hex hq h0]
  · intro h0
    rw [update_cart_present_pos uid item s r q hu hex hq h0]
  · intro h0 x hx
    rw [update_cart_present_nonpos uid item s r q hu hex hq h0] at hx
    have := (List.mem_filter.mp hx).2
    simpa using this
  · intro h0 ci hci
    rw [update_cart_present_nonpos uid item s r q hu hex hq h0] at hci
    simp only [get_cart, if_neg (not_ne_self uid), Except.toOption,
      Option.getD_some] at hci
    rcases List.mem_map.mp hci with ⟨x, hx, rfl⟩
    rcases List.mem_filter.mp hx with ⟨hx1, huser⟩
    have hkey : keyMatch uid item.product_id x = false := by
      have := (List.mem_filter.mp hx1).2
      simpa using this
    simp only [keyMatch, huser, Bool.true_and] at hkey
    simpa using hkey

/-- Witness for C5 at a concrete row: quantity 5 set to 3 gives 3. -/
theorem claim5_update_semantics_witness :
    (update_cart "alice" ⟨"alice", "sku1", some 3⟩ "alice"
      ⟨[⟨"alice", "sku1", 5⟩], []⟩).response = .ok () ∧
    (update_cart "alice" ⟨"alice", "sku1", some 3⟩ "alice"
        ⟨[⟨"alice", "sku1", 5⟩], []⟩).state.cart =
      [⟨"alice", "sku1", 5⟩].map (fun x =>
        if keyMatch "alice" "sku1" x then ⟨x.user_id, x.product_id, 3⟩
        else x) := by
  have T := claim5_update_semantics "alice" ⟨"alice", "sku1", some 3⟩
    ⟨[⟨"alice", "sku1", 5⟩], []⟩ ⟨"alice", "sku1", 5⟩ 3 (by decide) (by decide) rfl
  exact ⟨T.1, T.2.1 (by decide)⟩

/-- Claim C7: every authorized AddItem appends exactly one interaction
entry to the log, with actor `item.user_id` and subject
`item.product_id`, unconditionally — whatever the store lookup yields —
and the log write is the first effect issued, before any store write or
commit. -/
theorem claim7_add_logs_first (uid : String) (item : CartItem) (s : State) :
    (add_to_cart uid item uid s).state.log =
      s.log ++ [⟨item.user_id, item.product_id, cartInteraction⟩] ∧
    ∃ t, (add_to_cart uid item uid s).trace =
        Eff.logWrite ⟨item.user_id, item.product_id, cartInteraction⟩ :: t ∧
      ∀ x ∈ t, x = Eff.storeWrite ∨ x = Eff.commit := by
  obtain ⟨h1, h2 | h2⟩ := add_to_cart_log_trace uid item s
  · exact ⟨h1, [.storeWrite, .commit], by rw [h2], by decide⟩
  · exact ⟨h1, [], by rw [h2], by decide⟩

/-- Witness for C7 at a concrete item and empty cart. -/
theorem claim7_add_logs_first_witness :
    (add_to_cart "alice" ⟨"alice", "sku1", some 1⟩ "alice" ⟨[], []⟩).state.log =
      [] ++ [⟨"alice", "sku1", cartInteraction⟩] ∧
    ∃ t, (add_to_cart "alice" ⟨"alice", "sku1", some 1⟩ "alice" ⟨[], []⟩).trace =
        Eff.logWrite ⟨"alice", "sku1", cartInteraction⟩ :: t ∧
      ∀ x ∈ t, x = Eff.storeWrite ∨ x = Eff.commit :=
  claim7_add_logs_first "alice" ⟨"alice", "sku1", some 1⟩ ⟨[], []⟩

/-- Claim C8: an authorized ListCart returns exactly the stored rows whose
user_id equals the path parameter, field for field, leaves the state
untouched, issues no effect, and yields an empty list (not an error) on an
empty cart. -/
theorem claim8_get_cart (uid : String) (s : State) :
    (get_cart uid uid s).response =
      .ok ((s.cart.filter (fun r => r.user_id == uid)).map
        (fun r => ⟨r.user_id, r.product_id, some r.quantity⟩)) ∧
    (∀ ci ∈ (get_cart uid uid s).response.toOption.getD [], ci.user_id = uid) ∧
    (get_cart uid uid s).state = s ∧
    (get_cart uid uid s).trace = [] ∧
    (get_cart "carol" "carol" ⟨[], []⟩).response = .ok [] := by
  refine ⟨?_, ?_, ?_, ?_, by rfl⟩
  · simp only [get_cart, if_neg (not_ne_self uid)]
  · intro ci hci
    simp only [get_cart, if_neg (not_ne_self uid), Except.toOption,
      Option.getD_some] at hci
    rcases List.mem_map.mp hci with ⟨x, hx, rfl⟩
    have := (List.mem_filter.mp hx).2
    simpa using this
  · simp only [get_cart, if_neg (not_ne_self uid)]
  · simp only [get_cart, if_neg (not_ne_self uid)]

/-- Witness for C8 on a two-user store: only the rows of the path user
come back, field for field. -/
theorem claim8_get_cart_witness :
    (get_cart "alice" "alice"
        ⟨[⟨"alice", "sku1", 2⟩, ⟨"bob", "sku2", 3⟩], []⟩).response =
      .ok [⟨"alice", "sku1", some 2⟩] ∧
    (get_cart "alice" "alice"
        ⟨[⟨"alice", "sku1", 2⟩, ⟨"bob", "sku2", 3⟩], []⟩).state =
      ⟨[⟨"alice", "sku1", 2⟩, ⟨"bob", "sku2", 3⟩], []⟩ := by
  have T := claim8_get_cart "alice" ⟨[⟨"alice", "sku1", 2⟩, ⟨"bob", "sku2", 3⟩], []⟩
  exact ⟨T.1.trans (by rfl), T.2.2.1⟩

/-- Claim C9: when the AddItem body names a user other than the path
parameter, the store mutation is still keyed by the path user_id —
a created row carries the path user_id, an incremented row is the one
keyed by the path user_id, and every row of the resulting cart is either
an old row or one keyed by the path user_id — while the interaction-log
entry is attributed to `item.user_id` from the body, so the mutated cart and
the logged actor name different users. -/
theorem claim9_body_user_ignored (uid : String) (item : CartItem) (s : State)
    (hu : keysUnique s.cart) (hne : item.user_id ≠ uid) :
    (add_to_cart uid item uid s).state.log =
      s.log ++ [⟨item.user_id, item.product_id, cartInteraction⟩] ∧
    (findRow s.cart uid item.product_id = none →
      (add_to_cart uid item uid s).state.cart =
        s.cart ++ [⟨uid, item.product_id, orOne item.quantity⟩]) ∧
    (∀ r, findRow s.cart uid item.product_id = some r →
      (add_to_cart uid item uid s).state.cart =
        s.cart.map (fun x =>
          if keyMatch uid item.product_id x then
            ⟨x.user_id, x.product_id, x.quantity + orOne item.quantity⟩
          else x)) ∧
    (∀ x ∈ (add_to_cart uid item uid s).state.cart,
      x ∈ s.cart ∨ x.user_id = uid) ∧
    uid ≠ item.user_id := by
  refine ⟨(add_to_cart_log_trace uid item s).1, ?_, ?_, ?_, Ne.symm hne⟩
  · intro hf
    rw [add_to_cart_absent uid item s hf]
  · intro r hf
    rw [add_to_cart_present uid item s r hu hf]
  · intro x hx
    cases hf : findRow s.cart uid item.product_id with
    | none =>
        rw [add_to_cart_absent uid item s hf] at hx
        rcases List.mem_append.mp hx with hx1 | hx2
        · exact Or.inl hx1
        · rcases List.mem_singleton.mp hx2 with rfl
          exact Or.inr rfl
    | some r =>
        rw [add_to_cart_present uid item s r hu hf] at hx
        rcases List.mem_map.mp hx with ⟨y, hy, rfl⟩
        by_cases hk : keyMatch uid item.product_id y = true
        · rw [if_pos hk]
          exact Or.inr ((keyMatch_iff uid item.product_id y).mp hk).1
        · rw [if_neg hk]
          exact Or.inl hy

/-- Witness for C9: body user "mallory", path user "alice" — the created
row belongs to alice, the log entry to mallory. -/
theorem claim9_body_user_ignored_witness :
    (add_to_cart "alice" ⟨"mallory", "sku1", some 1⟩ "alice" ⟨[], []⟩).state.log =
      [⟨"mallory", "sku1", cartInteraction⟩] ∧
    (add_to_cart "alice" ⟨"mallory", "sku1", some 1⟩ "alice" ⟨[], []⟩).state.cart =
      [⟨"alice", "sku1", orOne (some 1)⟩] := by
  have T := claim9_body_user_ignored "alice" ⟨"mallory", "sku1", some 1⟩
    ⟨[], []⟩ (by decide) (by decide)
  exact ⟨T.1, T.2.1 (by decide)⟩

/-- Shape of an UpdateItem outcome for any caller: the log is never
touched and the trace is either empty or a store write plus commit. -/
lemma update_cart_log_trace (uid cur : String) (item : CartItem) (s : State) :
    (update_cart uid item cur s).state.log = s.log ∧
    ((update_cart uid item cur s).trace = [] ∨
      (update_cart uid item cur s).trace = [.storeWrite, .commit]) := by
  by_cases hc : cur ≠ uid
  · unfold update_cart
    rw [if_pos hc]
    exact ⟨rfl, Or.inl rfl⟩
  · rcases hflt : s.cart.filter (keyMatch uid item.product_id) with _ | ⟨r1, _ | ⟨r2, rest⟩⟩
    · unfold update_cart
      rw [if_neg hc, hflt]
      exact ⟨rfl, Or.inl rfl⟩
    · unfold update_cart
      rw [if_neg hc, hflt]
      rcases item.quantity with _ | q
      · exact ⟨rfl, Or.inl rfl⟩
      · dsimp only [scalar_one_or_none]
        by_cases hq0 : q ≤ 0
        · rw [if_pos hq0]
          exact ⟨rfl, Or.inr rfl⟩
        · rw [if_neg hq0]
          exact ⟨rfl, Or.inr rfl⟩
    · unfold update_cart
      rw [if_neg hc, hflt]
      exact ⟨rfl, Or.inl rfl⟩

/-- Claim C10: ListCart, UpdateItem and RemoveItem never touch the
interaction log and never issue a log-write effect, on any execution path
(success, Forbidden or NotFound); and an AddItem stopped by the
authorization check leaves the log unchanged as well, so only an AddItem
past its authorization check writes the log. -/
theorem claim10_only_add_logs (uid cur : String) (item : CartItem) (s : State) :
    (get_cart uid cur s).state.log = s.log ∧
    (update_cart uid item cur s).state.log = s.log ∧
    (remove_from_cart uid item cur s).state.log = s.log ∧
    (∀ e, Eff.logWrite e ∉ (get_cart uid cur s).trace) ∧
    (∀ e, Eff.logWrite e ∉ (update_cart uid item cur s).trace) ∧
    (∀ e, Eff.logWrite e ∉ (remove_from_cart uid item cur s).trace) ∧
    (cur ≠ uid →
      (add_to_cart uid item cur s).state.log = s.log ∧
      (add_to_cart uid item cur s).trace = []) := by
  have hget : (get_cart uid cur s).state.log = s.log ∧ (get_cart uid cur s).trace = [] := by
    unfold get_cart
    by_cases hc : cur ≠ uid
    · rw [if_pos hc]
      exact ⟨rfl, rfl⟩
    · rw [if_neg hc]
      exact ⟨rfl, rfl⟩
  have hrem : (remove_from_cart uid item cur s).state.log = s.log ∧
      (remove_from_cart uid item cur s).trace = [] := by
    unfold remove_from_cart
    by_cases hc : cur ≠ uid
    · rw [if_pos hc]
      exact ⟨rfl, rfl⟩
    · rw [if_neg hc]
      exact ⟨rfl, rfl⟩
  have hupd := update_cart_log_trace uid cur item s
  refine ⟨hget.1, hupd.1, hrem.1, ?_, ?_, ?_, ?_⟩
  · intro e
    rw [hget.2]
    exact List.not_mem_nil _
  · intro e
    rcases hupd.2 with h | h <;> rw [h] <;> simp
  · intro e
    rw [hrem.2]
    exact List.not_mem_nil _
  · intro hc
    unfold add_to_cart
    rw [if_pos hc]
    exact ⟨rfl, rfl⟩

/-- Witness for C10: concrete calls by a non-owner leave a one-entry log
unchanged, and the blocked AddItem issues no effect at all. -/
theorem claim10_only_add_logs_witness :
    (update_cart "alice" ⟨"alice", "sku1", some 1⟩ "bob"
      ⟨[], [⟨"a", "b", "c"⟩]⟩).state.log = [⟨"a", "b", "c"⟩] ∧
    (add_to_cart "alice" ⟨"alice", "sku1", some 1⟩ "bob"
      ⟨[], [⟨"a", "b", "c"⟩]⟩).state.log = [⟨"a", "b", "c"⟩] ∧
    (add_to_cart "alice" ⟨"alice", "sku1", some 1⟩ "bob"
      ⟨[], [⟨"a", "b", "c"⟩]⟩).trace = [] := by
  have T := claim10_only_add_logs "alice" "bob" ⟨"alice", "sku1", some 1⟩
    ⟨[], [⟨"a", "b", "c"⟩]⟩
  exact ⟨T.2.1, (T.2.2.2.2.2.2 (by decide)).1, (T.2.2.2.2.2.2 (by decide)).2⟩

end CartService
